import Mathlib

set_option autoImplicit false

/-!
Shallow embedding of src/lua_saml.c (the Lua binding of lua-resty-saml).

Each binding function is embedded as a total Lean function. Results of the
external libxml2 and xmlsec calls, and of the repository C library (saml.h,
whose implementation is not part of src/), appear as explicit parameters:
an Option models a possibly NULL pointer, and an Int models a C result code.
A raised Lua error (luaL_argcheck, luaL_checktype, luaL_checklstring,
luaL_argerror) is modelled as Except.error with the message; a normal return
of a (value, error) pair is modelled by the LuaRet structure.
-/

namespace LuaSaml

/-- A Lua value as pushed by the binding: nil, a boolean, a string, a light
userdata wrapping a (possibly NULL) pointer, or a table of integer-keyed
string entries (the shape used for multi-valued SAML attributes). -/
inductive LuaValue where
  | nil
  | boolean (b : Bool)
  | str (s : String)
  | lightuserdata (p : Option Nat)
  | table (entries : List (Nat × String))
  deriving Repr, DecidableEq

/-- The (result, error) pair returned by binding functions that push two
values. -/
structure LuaRet where
  result : LuaValue
  err : Option String
  deriving Repr, DecidableEq

/-- The C push of an int as a Lua boolean: any nonzero int is true. -/
def lua_pushboolean (n : Int) : LuaValue :=
  LuaValue.boolean (decide (n ≠ 0))

/-- Embedding of parse (src/lua_saml.c lines 58-71): the xmlReadMemory result
is the parameter; NULL becomes nil, otherwise the document pointer is pushed. -/
def parse (readRes : Option Nat) : LuaValue :=
  match readRes with
  | none => LuaValue.nil
  | some d => LuaValue.lightuserdata (some d)

/-- Embedding of parse_file (src/lua_saml.c lines 80-92): same translation of
the xmlReadFile result. -/
def parse_file (readRes : Option Nat) : LuaValue :=
  match readRes with
  | none => LuaValue.nil
  | some d => LuaValue.lightuserdata (some d)

/-- Embedding of load_cert (src/lua_saml.c lines 348-357): the
xmlSecCryptoAppKeyLoadMemory result is pushed with lua_pushlightuserdata
directly, with no NULL check. -/
def load_cert (loadRes : Option Nat) : LuaValue :=
  LuaValue.lightuserdata loadRes

/-- Embedding of load_cert_file (src/lua_saml.c lines 366-378): a NULL
xmlSecCryptoAppKeyLoad result becomes nil, otherwise the key is pushed. -/
def load_cert_file (loadRes : Option Nat) : LuaValue :=
  match loadRes with
  | none => LuaValue.nil
  | some c => LuaValue.lightuserdata (some c)

/-- Modelled from the spec: the result-code convention of saml_verify_doc and
saml_verify_binary, implemented in the repository C library (saml.h) whose
source is not under src/. Per the spec, verification distinguishes exactly
three outcomes: the signature verifies; any cryptographic mismatch, including
the case where no matching trusted key is found; and a structural or
operational failure (such as a missing Signature element or a malformed
key/transform). -/
inductive saml_verify_outcome where
  | valid
  | mismatch
  | opFail
  deriving Repr, DecidableEq

/-- Modelled from the spec: the C int returned by saml_verify_doc and
saml_verify_binary for each outcome: 0 when valid, 1 for a cryptographic
mismatch, and a negative value for an operational failure. -/
def saml_verify_res : saml_verify_outcome → Int
  | saml_verify_outcome.valid => 0
  | saml_verify_outcome.mismatch => 1
  | saml_verify_outcome.opFail => -1

/-- The (result, error) pair the binding produces for each verification
outcome after its translation of the C result code. -/
def verify_ret : saml_verify_outcome → LuaRet
  | saml_verify_outcome.valid => ⟨LuaValue.boolean true, none⟩
  | saml_verify_outcome.mismatch => ⟨LuaValue.boolean false, none⟩
  | saml_verify_outcome.opFail => ⟨LuaValue.nil, some "saml verify failed"⟩

/-- Embedding of verify_binary (src/lua_saml.c lines 627-653): after the
argument checks, a negative saml_verify_binary result becomes nil plus an
error string, and a non-negative result res becomes the boolean 1 - res. -/
def verify_binary (cert transform_id : Option Nat) (res : Int) :
    Except String LuaRet :=
  match cert with
  | none => Except.error "xmlSecKey* expected"
  | some _ =>
    match transform_id with
    | none => Except.error "xmlSecTransformId expected"
    | some _ =>
      if res < 0 then Except.ok ⟨LuaValue.nil, some "saml verify failed"⟩
      else Except.ok ⟨lua_pushboolean (1 - res), none⟩

/-- The state of the optional id_attr field read with lua_getfield: absent
(nil on the stack), a string value, or a value of another type on which
luaL_checklstring raises. -/
inductive OptField where
  | absent
  | strVal (s : String)
  | nonStr
  deriving Repr, DecidableEq

/-- The third argument of verify_doc: not passed, nil, a non-table value, or
a table whose id_attr field is described by an OptField. -/
inductive VerifyOptsArg where
  | noArg
  | nilArg
  | nonTable
  | tbl (id_attr : OptField)
  deriving Repr, DecidableEq

/-- Embedding of the options handling of verify_doc (src/lua_saml.c lines
674-684): a missing or nil argument leaves id_attr NULL, a table goes through
lua_getfield followed by luaL_checklstring on the field value, which raises
when the field is absent (nil) or not a string. -/
def verify_doc_opts : VerifyOptsArg → Except String (Option String)
  | VerifyOptsArg.noArg => Except.ok none
  | VerifyOptsArg.nilArg => Except.ok none
  | VerifyOptsArg.nonTable => Except.error "table expected"
  | VerifyOptsArg.tbl OptField.absent => Except.error "string expected, got nil"
  | VerifyOptsArg.tbl OptField.nonStr => Except.error "string expected"
  | VerifyOptsArg.tbl (OptField.strVal s) => Except.ok (some s)

/-- Embedding of verify_doc (src/lua_saml.c lines 665-695): argument checks,
options handling, then the translation of the saml_verify_doc result code
res: negative becomes nil plus an error string, otherwise the boolean
1 - res is pushed with no error. -/
def verify_doc (mngr doc : Option Nat) (optsArg : VerifyOptsArg) (res : Int) :
    Except String LuaRet :=
  match mngr with
  | none => Except.error "xmlSecKeysMngr* expected"
  | some _ =>
    match doc with
    | none => Except.error "xmlDoc* expected"
    | some _ =>
      match verify_doc_opts optsArg with
      | Except.error e => Except.error e
      | Except.ok _ =>
        if res < 0 then Except.ok ⟨LuaValue.nil, some "saml verify failed"⟩
        else Except.ok ⟨lua_pushboolean (1 - res), none⟩

/-- The state of the optional insert_after field of a sign options table:
absent, a two-element table of strings, a table whose length is not 2, a
two-element table with a non-string element, or a non-table value. -/
inductive InsertAfterField where
  | absent
  | pair (ns el : String)
  | badLen (n : Nat)
  | pairNonStr
  | nonTable
  deriving Repr, DecidableEq

/-- The options argument of sign_doc and sign_xml: nil, a non-table value, or
a table with an id_attr field and an insert_after field. -/
inductive SignOptsArg where
  | nilArg
  | nonTable
  | tbl (id_attr : OptField) (insert_after : InsertAfterField)
  deriving Repr, DecidableEq

/-- The saml_doc_opts_t structure filled by sign_get_opts. -/
structure saml_doc_opts_t where
  id_attr : Option String
  insert_after_ns : Option String
  insert_after_el : Option String
  deriving Repr, DecidableEq

/-- The id_attr handling of sign_get_opts (src/lua_saml.c lines 507-509): a
nil field is left as NULL, a string is taken, and luaL_checklstring raises on
any other type. -/
def sign_opt_id_attr : OptField → Except String (Option String)
  | OptField.absent => Except.ok none
  | OptField.strVal s => Except.ok (some s)
  | OptField.nonStr => Except.error "string expected"

/-- The insert_after handling of sign_get_opts (src/lua_saml.c lines
511-525): a nil field is left as NULL, a table must have length exactly 2
(else luaL_argerror raises), and its two elements go through
luaL_checklstring. -/
def sign_opt_insert_after :
    InsertAfterField → Except String (Option String × Option String)
  | InsertAfterField.absent => Except.ok (none, none)
  | InsertAfterField.pair ns el => Except.ok (some ns, some el)
  | InsertAfterField.badLen _ =>
      Except.error "insert_after must be a table of form \x7bnamespace, element\x7d"
  | InsertAfterField.pairNonStr => Except.error "string expected"
  | InsertAfterField.nonTable => Except.error "table expected"

/-- Embedding of sign_get_opts (src/lua_saml.c lines 494-526): a nil argument
yields all-NULL options; a table is checked with luaL_checktype and its
id_attr and insert_after fields are processed in that order. -/
def sign_get_opts : SignOptsArg → Except String saml_doc_opts_t
  | SignOptsArg.nilArg => Except.ok ⟨none, none, none⟩
  | SignOptsArg.nonTable => Except.error "table expected"
  | SignOptsArg.tbl ia ins =>
    match sign_opt_id_attr ia with
    | Except.error e => Except.error e
    | Except.ok a =>
      match sign_opt_insert_after ins with
      | Except.error e => Except.error e
      | Except.ok p => Except.ok ⟨a, p.1, p.2⟩

/-- Record of one sign_doc run: the document pointer handed to saml_sign_doc
and the pushed return value (nil on success, an error string on failure). -/
structure SignDocCall where
  engineDoc : Option Nat
  ret : Option String
  deriving Repr, DecidableEq

/-- Embedding of sign_doc (src/lua_saml.c lines 539-562). The argument check
for the document at line 550 tests the key pointer again instead of the
document pointer, exactly as the C source does, so a NULL document is not
rejected. The saml_sign_doc result code is the parameter signRes (0 means
success, as tested at line 556). -/
def sign_doc (key transform_id doc : Option Nat) (optsArg : SignOptsArg)
    (signRes : Int) : Except String SignDocCall :=
  match key with
  | none => Except.error "xmlSecKey* expected"
  | some _ =>
    match transform_id with
    | none => Except.error "xmlSecTransformId expected"
    | some _ =>
      match key with
      | none => Except.error "xmlDoc* expected"
      | some _ =>
        match sign_get_opts optsArg with
        | Except.error e => Except.error e
        | Except.ok _ =>
          Except.ok ⟨doc, if signRes = 0 then none else some "saml sign failed"⟩

/-- Outcome of one sign_xml run: a normal return of a (result, error) pair,
or a raised Lua error; both record whether the intermediate document was
created by xmlReadMemory and whether xmlFreeDoc was called on it. -/
inductive SignXmlOutcome where
  | ret (result : LuaValue) (err : Option String) (docCreated docFreed : Bool)
  | raise (msg : String) (docCreated docFreed : Bool)
  deriving Repr, DecidableEq

/-- Embedding of sign_xml (src/lua_saml.c lines 576-613): argument checks,
xmlReadMemory (its result is the parameter parseRes), then sign_get_opts,
then saml_sign_doc (its result code is signRes); on success the document dump
(the parameter signedText) is pushed. xmlFreeDoc runs at line 611 on both
normal return paths, but not when sign_get_opts raises at line 597. -/
def sign_xml (key transform_id : Option Nat) (parseRes : Option Nat)
    (optsArg : SignOptsArg) (signRes : Int) (signedText : String) :
    SignXmlOutcome :=
  match key with
  | none => SignXmlOutcome.raise "xmlSecKey* expected" false false
  | some _ =>
    match transform_id with
    | none => SignXmlOutcome.raise "xmlSecTransformId expected" false false
    | some _ =>
      match parseRes with
      | none =>
          SignXmlOutcome.ret LuaValue.nil (some "unable to parse xml string")
            false false
      | some _ =>
        match sign_get_opts optsArg with
        | Except.error e => SignXmlOutcome.raise e true false
        | Except.ok _ =>
          if signRes = 0 then
            SignXmlOutcome.ret (LuaValue.str signedText) none true true
          else
            SignXmlOutcome.ret LuaValue.nil (some "saml sign failed") true true

/-- An intermediate document leaks when sign_xml created it and exited
without freeing it. -/
def doc_leaked : SignXmlOutcome → Bool
  | SignXmlOutcome.ret _ _ c f => c && !f
  | SignXmlOutcome.raise _ c f => c && !f

/-- Outcome of one create_keys_mngr run: a raised Lua error or a normal
return of a (manager, error) pair; both record whether xmlSecKeysMngrDestroy
was called. -/
inductive MngrOutcome where
  | raise (msg : String) (destroyCalled : Bool)
  | ret (result : Option Nat) (err : Option String) (destroyCalled : Bool)
  deriving Repr, DecidableEq

/-- The adoption loop of create_keys_mngr (src/lua_saml.c lines 412-425) over
the list of keys, each given as the lua_touserdata result (NULL raises an
argument error) together with the success bit of
xmlSecCryptoAppDefaultKeysMngrAdoptKey; on the first failed adoption the
manager is destroyed and nil plus an error string is returned. The manager
handle m is returned when every adoption succeeds. -/
def adopt_keys (m : Nat) : List (Option Nat × Bool) → MngrOutcome
  | [] => MngrOutcome.ret (some m) none false
  | (none, _) :: _ => MngrOutcome.raise "xmlSecKey* expected" false
  | (some _, ok) :: rest =>
    if ok then adopt_keys m rest
    else MngrOutcome.ret none (some "adopt key failed") true

/-- Embedding of create_keys_mngr (src/lua_saml.c lines 391-431): the
xmlSecKeysMngrCreate and xmlSecCryptoAppDefaultKeysMngrInit success bits are
the parameters createOk and initOk; then the adoption loop runs. -/
def create_keys_mngr (createOk initOk : Bool) (m : Nat)
    (keys : List (Option Nat × Bool)) : MngrOutcome :=
  if createOk then
    if initOk then adopt_keys m keys
    else MngrOutcome.ret none (some "initialize keys manager failed") true
  else MngrOutcome.ret none (some "create keys manager failed") false

/-- Embedding of find_transform_by_href (src/lua_saml.c lines 441-454): the
xmlsec transform registry is an association list of (href, transform id)
pairs, searched by exact string match as xmlSecTransformIdListFindByHref
does; a miss becomes nil, a hit is pushed as a light userdata. -/
def find_transform_by_href (reg : List (String × Nat)) (href : String) :
    LuaValue :=
  match reg.find? (fun p => p.1 == href) with
  | none => LuaValue.nil
  | some p => LuaValue.lightuserdata (some p.2)

/-- Modelled from the spec: one saml_attr_t produced by saml_doc_attrs
(repository C library, saml.h, not under src/): the Attribute name (NULL when
absent) and, per the spec, the text contents of its AttributeValue children
in document order, with num_values the child count; a value is NULL when the
child has no text. -/
structure saml_attr_t where
  name : Option String
  values : List (Option String)
  deriving Repr, DecidableEq

/-- The list-building loop of the default branch of attrs (src/lua_saml.c
lines 230-239): index j runs over the values, entry j + 1 is set to the
value when it is non-NULL; setting a table entry to nil stores nothing. -/
def attr_list_entries : Nat → List (Option String) → List (Nat × String)
  | _, [] => []
  | j, none :: rest => attr_list_entries (j + 1) rest
  | j, some s :: rest => (j + 1, s) :: attr_list_entries (j + 1) rest

/-- The value pushed for one attribute by the switch on num_values in attrs
(src/lua_saml.c lines 218-241): zero values push nil, one value pushes the
string (nil when NULL), two or more build the integer-keyed table. -/
def attr_value : List (Option String) → LuaValue
  | [] => LuaValue.nil
  | [none] => LuaValue.nil
  | [some s] => LuaValue.str s
  | vs => LuaValue.table (attr_list_entries 0 vs)

/-- The attribute table built by attrs (src/lua_saml.c lines 214-244):
attributes with a NULL name are skipped; in Lua, a pair whose value is nil is
indistinguishable from an absent key, so pairs are kept as pushed. -/
def attrs_table (l : List saml_attr_t) : List (String × LuaValue) :=
  l.filterMap (fun a => a.name.map (fun n => (n, attr_value a.values)))

/-- The result of attrs: nil when saml_doc_attrs fails, the table otherwise. -/
inductive AttrsResult where
  | nilRes
  | tblRes (entries : List (String × LuaValue))
  deriving Repr, DecidableEq

/-- Embedding of attrs (src/lua_saml.c lines 201-247): the saml_doc_attrs
result is the parameter (none models a negative return). -/
def attrs (extractRes : Option (List saml_attr_t)) : AttrsResult :=
  match extractRes with
  | none => AttrsResult.nilRes
  | some l => AttrsResult.tblRes (attrs_table l)

theorem attr_list_entries_snd (l : List String) (j : Nat) :
    (attr_list_entries j (l.map some)).map Prod.snd = l := by
  induction l generalizing j with
  | nil => rfl
  | cons s rest ih => simp [attr_list_entries, ih]

theorem attr_list_entries_fst (l : List String) (j : Nat) :
    (attr_list_entries j (l.map some)).map Prod.fst =
      List.range' (j + 1) l.length := by
  induction l generalizing j with
  | nil => rfl
  | cons s rest ih => simp [attr_list_entries, ih, List.range'_succ]

/-- Claim C9: parse and parse_file return nil exactly when the underlying XML
read yields no document (malformed input), and a light userdata document
handle otherwise; both are total translations of the read result, so
malformed input never produces a hard failure or crash. -/
theorem parse_nil_iff_malformed (r : Option Nat) :
    (parse r = LuaValue.nil ↔ r = none)
  ∧ (parse_file r = LuaValue.nil ↔ r = none)
  ∧ (∀ d, parse (some d) = LuaValue.lightuserdata (some d))
  ∧ (∀ d, parse_file (some d) = LuaValue.lightuserdata (some d)) := by
  refine ⟨?_, ?_, fun d => rfl, fun d => rfl⟩ <;>
    cases r <;> simp [parse, parse_file]

/-- Claim C7: when the PEM certificate load from memory fails (a NULL key
pointer from the crypto backend), load_cert still pushes a light userdata
wrapping NULL instead of nil, because line 355 of src/lua_saml.c has no NULL
check; the sibling load_cert_file does return nil on the same failure. -/
theorem load_cert_null_not_nil :
    load_cert none = LuaValue.lightuserdata none
  ∧ load_cert none ≠ LuaValue.nil
  ∧ load_cert_file none = LuaValue.nil := by
  refine ⟨rfl, ?_, rfl⟩
  decide

/-- Claim C1: for every keys manager, document, and options argument whose
parsing succeeds, verify_doc maps each saml_verify_doc outcome to the
three-tier result: valid gives boolean true, any cryptographic mismatch
(including no matching trusted key) gives boolean false with no error, and
only a structural/operational failure gives nil plus an error string. -/
theorem verify_doc_three_tier (m d : Nat) (optsArg : VerifyOptsArg)
    (o : saml_verify_outcome)
    (h : ∃ a, verify_doc_opts optsArg = Except.ok a) :
    verify_doc (some m) (some d) optsArg (saml_verify_res o) =
      Except.ok (verify_ret o) := by
  obtain ⟨a, ha⟩ := h
  cases o <;>
    simp [verify_doc, ha, saml_verify_res, verify_ret, lua_pushboolean]

theorem verify_doc_three_tier_witness :
    verify_doc (some 0) (some 0) VerifyOptsArg.nilArg
        (saml_verify_res saml_verify_outcome.mismatch) =
      Except.ok (verify_ret saml_verify_outcome.mismatch) :=
  verify_doc_three_tier 0 0 VerifyOptsArg.nilArg saml_verify_outcome.mismatch
    ⟨none, rfl⟩

/-- Claim C8: the code raises instead of defaulting. When verify_doc is given
an options table without an id_attr field, lua_getfield leaves nil on the
stack and luaL_checklstring at line 682 of src/lua_saml.c (marked there with
a TODO that the value can be null) raises an argument error; the operation
does not proceed with a default id attribute. -/
theorem verify_doc_missing_id_attr_raises :
    verify_doc (some 0) (some 0) (VerifyOptsArg.tbl OptField.absent) 0 =
      Except.error "string expected, got nil" := rfl

/-- Claim C2: for every key and transform id, verify_binary produces exactly
one of three pairwise distinct outcomes: boolean true when the signature is
cryptographically valid, boolean false with no error when it is invalid, and
nil plus an error string only when the operation could not complete; a
mismatch is never reported as an error. -/
theorem verify_binary_three_outcomes (k t : Nat) (o : saml_verify_outcome) :
    verify_binary (some k) (some t) (saml_verify_res o) =
      Except.ok (verify_ret o)
  ∧ verify_ret saml_verify_outcome.valid ≠
      verify_ret saml_verify_outcome.mismatch
  ∧ verify_ret saml_verify_outcome.valid ≠
      verify_ret saml_verify_outcome.opFail
  ∧ verify_ret saml_verify_outcome.mismatch ≠
      verify_ret saml_verify_outcome.opFail
  ∧ (verify_ret saml_verify_outcome.mismatch).err = none := by
  refine ⟨?_, by decide, by decide, by decide, rfl⟩
  cases o <;>
    simp [verify_binary, saml_verify_res, verify_ret, lua_pushboolean]

/-- Claim C3: when manager creation and initialization succeed and the keys
are all non-NULL, any failed adoption makes create_keys_mngr destroy the
manager (releasing all previously adopted keys) and return nil plus an error
string; no partial manager is ever returned. -/
theorem create_keys_mngr_atomic (m : Nat) (keys : List (Option Nat × Bool))
    (hk : ∀ p ∈ keys, p.1 ≠ none) (hf : ∃ p ∈ keys, p.2 = false) :
    create_keys_mngr true true m keys =
      MngrOutcome.ret none (some "adopt key failed") true := by
  simp only [create_keys_mngr, if_true]
  induction keys with
  | nil => obtain ⟨p, hp, _⟩ := hf; cases hp
  | cons a rest ih =>
    obtain ⟨k, ok⟩ := a
    cases k with
    | none => exact absurd rfl (hk (none, ok) (List.mem_cons_self _ _))
    | some v =>
      cases ok with
      | false => rfl
      | true =>
        have hrest : ∃ p ∈ rest, p.2 = false := by
          obtain ⟨p, hp, hpf⟩ := hf
          rcases List.mem_cons.mp hp with h | h
          · rw [h] at hpf; cases hpf
          · exact ⟨p, h, hpf⟩
        have : adopt_keys m rest =
            MngrOutcome.ret none (some "adopt key failed") true :=
          ih (fun p hp => hk p (List.mem_cons_of_mem _ hp)) hrest
        simpa [adopt_keys] using this

theorem create_keys_mngr_atomic_witness :
    create_keys_mngr true true 7 [(some 1, true), (some 2, false)] =
      MngrOutcome.ret none (some "adopt key failed") true :=
  create_keys_mngr_atomic 7 [(some 1, true), (some 2, false)] (by decide)
    ⟨(some 2, false), by decide, rfl⟩

/-- Claim C5: for every registry table and URI string, find_transform_by_href
returns nil (not an error, and being a total function, not a crash) when no
table entry has that URI, and returns the corresponding transform id as a
light userdata when an entry matches exactly and the table keys are
distinct. -/
theorem find_transform_spec (reg : List (String × Nat)) (href : String) :
    ((∀ p ∈ reg, p.1 ≠ href) →
      find_transform_by_href reg href = LuaValue.nil)
  ∧ (∀ t, (href, t) ∈ reg → (reg.map Prod.fst).Nodup →
      find_transform_by_href reg href = LuaValue.lightuserdata (some t)) := by
  constructor
  · intro h
    have hn : reg.find? (fun p => p.1 == href) = none := by
      rw [List.find?_eq_none]
      intro p hp
      simpa using h p hp
    simp [find_transform_by_href, hn]
  · intro t ht hnd
    induction reg with
    | nil => cases ht
    | cons a rest ih =>
      rw [List.map_cons, List.nodup_cons] at hnd
      by_cases ha : a.1 = href
      · have hfind : (a :: rest).find? (fun p => p.1 == href) = some a :=
          List.find?_cons_of_pos _ (by simpa using ha)
        have hat : a = (href, t) := by
          rcases List.mem_cons.mp ht with h | h
          · exact h.symm
          · exact absurd (ha ▸ List.mem_map_of_mem Prod.fst h) hnd.1
        simp [find_transform_by_href, hfind, hat]
      · have hfind : (a :: rest).find? (fun p => p.1 == href) =
            rest.find? (fun p => p.1 == href) :=
          List.find?_cons_of_neg _ (by simpa using ha)
        have hrest : (href, t) ∈ rest := by
          rcases List.mem_cons.mp ht with h | h
          · rw [← h] at ha; simp at ha
          · exact h
        have := ih hrest hnd.2
        simpa [find_transform_by_href, hfind] using this

theorem find_transform_spec_witness :
    find_transform_by_href [("u1", 1), ("u2", 2)] "u3" = LuaValue.nil
  ∧ find_transform_by_href [("u1", 1), ("u2", 2)] "u2" =
      LuaValue.lightuserdata (some 2) :=
  ⟨(find_transform_spec [("u1", 1), ("u2", 2)] "u3").1 (by decide),
   (find_transform_spec [("u1", 1), ("u2", 2)] "u2").2 2 (by decide)
     (by decide)⟩

/-- Claim C10: with a valid key and transform id but a nil document argument,
sign_doc is not rejected at the binding boundary: the argument check at line
550 of src/lua_saml.c re-tests the key pointer instead of the document
pointer, so saml_sign_doc is invoked with a NULL document pointer. -/
theorem sign_doc_null_doc_reaches_engine :
    sign_doc (some 1) (some 2) none SignOptsArg.nilArg (-1) =
      Except.ok ⟨none, some "saml sign failed"⟩ := rfl

/-- Claim C6 counterexample: with a malformed options argument (insert_after
given as a one-element table), sign_xml raises an argument error after the
document was parsed, and the document is not freed on that exit path, so the
claim that sign_xml frees the intermediate parsed document on every exit
path on which it was created is false. -/
theorem sign_xml_leaks_on_malformed_options :
    sign_xml (some 1) (some 2) (some 3)
        (SignOptsArg.tbl OptField.absent (InsertAfterField.badLen 1)) 0 "t" =
      SignXmlOutcome.raise
        "insert_after must be a table of form \x7bnamespace, element\x7d"
        true false
  ∧ doc_leaked
      (sign_xml (some 1) (some 2) (some 3)
        (SignOptsArg.tbl OptField.absent (InsertAfterField.badLen 1)) 0 "t") =
      true :=
  ⟨rfl, rfl⟩

/-- Claim C6 amended: for every key, transform id, xml text, and options
argument whose parsing succeeds, sign_xml returns Fail when parsing fails or
when saml_sign_doc fails, returns the serialized signed text otherwise, and
frees the intermediate parsed document on both of those normal exit paths;
on a malformed options argument the call instead raises an argument error
without freeing the document. -/
theorem sign_xml_spec (k t d : Nat) (optsArg : SignOptsArg) (signRes : Int)
    (signedText : String) (o : saml_doc_opts_t)
    (h : sign_get_opts optsArg = Except.ok o) :
    sign_xml (some k) (some t) none optsArg signRes signedText =
      SignXmlOutcome.ret LuaValue.nil (some "unable to parse xml string")
        false false
  ∧ (signRes = 0 →
      sign_xml (some k) (some t) (some d) optsArg signRes signedText =
        SignXmlOutcome.ret (LuaValue.str signedText) none true true)
  ∧ (signRes ≠ 0 →
      sign_xml (some k) (some t) (some d) optsArg signRes signedText =
        SignXmlOutcome.ret LuaValue.nil (some "saml sign failed") true true)
  ∧ doc_leaked
      (sign_xml (some k) (some t) (some d) optsArg signRes signedText) =
      false := by
  refine ⟨rfl, ?_, ?_, ?_⟩
  · intro hz; simp [sign_xml, h, hz]
  · intro hnz; simp [sign_xml, h, hnz]
  · by_cases hz : signRes = 0 <;> simp [sign_xml, h, hz, doc_leaked]

theorem sign_xml_spec_witness :
    sign_xml (some 1) (some 2) (some 3) SignOptsArg.nilArg 0 "s" =
      SignXmlOutcome.ret (LuaValue.str "s") none true true :=
  (sign_xml_spec 1 2 3 SignOptsArg.nilArg 0 "s" ⟨none, none, none⟩ rfl).2.1 rfl

/-- Claim C4: per extracted attribute, zero AttributeValue children yield a
nil value, exactly one child yields the scalar string, and two or more
children yield an integer-keyed table whose keys are 1..n in order and whose
values are the children in document order; an attribute with a non-NULL name
appears in the table built by attrs paired with exactly that value. -/
theorem attrs_value_shape (vs : List String) :
    attr_value [] = LuaValue.nil
  ∧ (∀ s, attr_value [some s] = LuaValue.str s)
  ∧ (2 ≤ vs.length →
        attr_value (vs.map some) =
          LuaValue.table (attr_list_entries 0 (vs.map some))
      ∧ (attr_list_entries 0 (vs.map some)).map Prod.snd = vs
      ∧ (attr_list_entries 0 (vs.map some)).map Prod.fst =
          List.range' 1 vs.length)
  ∧ (∀ (l : List saml_attr_t) (a : saml_attr_t) (n : String),
        a ∈ l → a.name = some n → (n, attr_value a.values) ∈ attrs_table l) := by
  refine ⟨rfl, fun s => rfl, fun h => ⟨?_, attr_list_entries_snd vs 0,
    attr_list_entries_fst vs 0⟩, fun l a n ha hn => ?_⟩
  · cases vs with
    | nil => simp at h
    | cons x tail =>
      cases tail with
      | nil => simp at h
      | cons y rest => rfl
  · exact List.mem_filterMap.mpr ⟨a, ha, by simp [hn]⟩

theorem attrs_value_shape_witness :
    attr_value [] = LuaValue.nil
  ∧ attr_value [some "a"] = LuaValue.str "a"
  ∧ attr_value (["a", "b"].map some) = LuaValue.table [(1, "a"), (2, "b")]
  ∧ ("x", attr_value [some "v"]) ∈
      attrs_table [⟨some "x", [some "v"]⟩] := by
  have h := attrs_value_shape ["a", "b"]
  exact ⟨h.1, h.2.1 "a", ((h.2.2.1 (by decide)).1).trans (by decide),
    h.2.2.2 [⟨some "x", [some "v"]⟩] ⟨some "x", [some "v"]⟩ "x"
      (by decide) rfl⟩

end LuaSaml
